import Mathlib

/-!
Verification of the agent decision loop in `agents/my_awesome_agent.py`
(`MyAwesomeAgent`): the decision engine (`is_done`, `choose_action`) and the
frame recorder (`save_frame_to_file`, `append_frame`).

The shared data model (`GameState`, `GameAction`, `FrameData` from
`agents/structs.py`) and the parent class `Agent` (`agents/agent.py`) are not
part of the analysed sources; those definitions are modelled from the spec and
marked as such in their doc comments. Everything else is translated directly
from `agents/my_awesome_agent.py`.
-/

namespace ArcAgents

/-- Modelled from the spec: `GameState` (from `agents/structs.py`, not among the
analysed sources) is an enum with NOT_PLAYED, GAME_OVER, WIN and other
in-progress variants supplied by the game protocol; NOT_FINISHED is the
in-progress variant. Its `value` is the string name of the variant. -/
inductive GameState where
  | NOT_PLAYED
  | NOT_FINISHED
  | GAME_OVER
  | WIN
deriving DecidableEq, Repr

/-- Modelled from the spec: the string `value` of a `GameState` enum member. -/
def GameState.value : GameState → String
  | .NOT_PLAYED => "NOT_PLAYED"
  | .NOT_FINISHED => "NOT_FINISHED"
  | .GAME_OVER => "GAME_OVER"
  | .WIN => "WIN"

/-- Modelled from the spec: `GameAction` (from `agents/structs.py`, not among
the analysed sources) is an enum of action kinds with exactly one reserved
kind RESET; the other kinds are ordinary gameplay actions, of which ACTION6 is
the complex one carrying a coordinate payload. -/
inductive GameAction where
  | RESET
  | ACTION1
  | ACTION2
  | ACTION3
  | ACTION4
  | ACTION5
  | ACTION6
deriving DecidableEq, Repr

/-- Modelled from the spec: the string `value` of a `GameAction` enum member. -/
def GameAction.value : GameAction → String
  | .RESET => "RESET"
  | .ACTION1 => "ACTION1"
  | .ACTION2 => "ACTION2"
  | .ACTION3 => "ACTION3"
  | .ACTION4 => "ACTION4"
  | .ACTION5 => "ACTION5"
  | .ACTION6 => "ACTION6"

/-- Modelled from the spec: iteration order of the `GameAction` enum, as used
by `[a for a in GameAction ...]` in `choose_action`. -/
def GameAction.all : List GameAction :=
  [.RESET, .ACTION1, .ACTION2, .ACTION3, .ACTION4, .ACTION5, .ACTION6]

/-- Modelled from the spec: a simple action is a bare kind with no structured
payload; every kind except the complex ACTION6 is simple. -/
def GameAction.is_simple : GameAction → Bool
  | .ACTION6 => false
  | _ => true

/-- Modelled from the spec: a complex action kind carries a structured
coordinate payload; ACTION6 is the complex kind. -/
def GameAction.is_complex : GameAction → Bool
  | .ACTION6 => true
  | _ => false

/-- Modelled from the spec: `FrameData` (from `agents/structs.py`, not among
the analysed sources) is an immutable snapshot with the listed attributes; the
`frame` attribute is the game-specific grid payload and `is_empty` reports
whether that payload carries no content. -/
structure FrameData where
  game_id : String
  frame : List (List (List Nat))
  state : GameState
  score : Nat
  guid : String
  full_reset : Bool
  available_actions : List GameAction
deriving DecidableEq, Repr

/-- Modelled from the spec: `is_empty` reports whether the frame payload
carries no content. -/
def FrameData.is_empty (f : FrameData) : Bool :=
  f.frame.isEmpty

/-! ## Randomness model

The Python code draws from the process-wide random generator
(`random.choice`, `random.randint`). That generator is deterministic state
that advances by one step per draw; we model it as a stream of raw draws
together with a position, so every possible sequence of draws is quantified
and the state change of each call is explicit. -/

/-- State of the process-wide random generator: a deterministic stream of raw
draws and the current position in it. Each draw reads the stream at the
current position and advances the position. -/
structure RandState where
  stream : Nat → Nat
  pos : Nat

/-- Take one raw draw from the generator, advancing its state. -/
def RandState.next (r : RandState) : Nat × RandState :=
  (r.stream r.pos, { r with pos := r.pos + 1 })

/-- The contract of `random.randint(lo, hi)`: from one raw draw, an integer in
the closed range `[lo, hi]`. -/
def randint (lo hi draw : Nat) : Nat :=
  lo + draw % (hi + 1 - lo)

/-- The contract of `random.choice(l)`: from one raw draw, an element of `l`
at a uniformly drawn index (the default is never reached for the non-empty
lists this program passes). -/
def pyChoice {α : Type} (l : List α) (default : α) (draw : Nat) : α :=
  l.getD (draw % l.length) default

/-! ## Decision engine (`is_done`, `choose_action`) -/

/-- The reasoning attached to a chosen action: the free-text string attached
to a simple action, or the structured object attached to a complex action. -/
inductive Reasoning where
  | none
  | text (s : String)
  | structured (desired_action my_reason : String)
deriving DecidableEq, Repr

/-- The action value returned by `choose_action`: the selected kind, the
coordinate payload attached by `set_data` (if any), and the attached
reasoning. -/
structure ChosenAction where
  kind : GameAction
  data : Option (Nat × Nat)
  reasoning : Reasoning
deriving DecidableEq, Repr

/-- Translation of `MyAwesomeAgent.is_done` (lines 29-37): done exactly when
the latest frame state is WIN; the commented-out GAME_OVER disjunct is absent. -/
def is_done (frames : List FrameData) (latest_frame : FrameData) : Bool :=
  [latest_frame.state == GameState.WIN].any (fun b => b)

/-- Translation of `MyAwesomeAgent.choose_action` (lines 39-64), with the
process-wide random generator passed explicitly. If the latest state is
NOT_PLAYED or GAME_OVER the action is RESET; otherwise `random.choice` picks
among all non-RESET kinds. A simple kind gets a free-text reasoning; a complex
kind gets `x` and `y` from `random.randint(0, 63)` and structured reasoning. -/
def choose_action (rng : RandState) (frames : List FrameData)
    (latest_frame : FrameData) : ChosenAction × RandState :=
  let picked : GameAction × RandState :=
    if latest_frame.state = GameState.NOT_PLAYED ∨
        latest_frame.state = GameState.GAME_OVER then
      (GameAction.RESET, rng)
    else
      let nx := rng.next
      (pyChoice (GameAction.all.filter (fun a => a ≠ GameAction.RESET))
        GameAction.RESET nx.1, nx.2)
  let action := picked.1
  let rngA := picked.2
  if action.is_simple then
    ({ kind := action, data := Option.none,
       reasoning := .text ("RNG told me to pick " ++ action.value) }, rngA)
  else if action.is_complex then
    let nx := rngA.next
    let ny := nx.2.next
    ({ kind := action, data := Option.some (randint 0 63 nx.1, randint 0 63 ny.1),
       reasoning := .structured action.value "RNG said so!" }, ny.2)
  else
    ({ kind := action, data := Option.none, reasoning := .none }, rngA)

/-- The grid bound used by the coordinate payload: the code hardcodes
`random.randint(0, 63)`, so GRID_MAX is 63. -/
def GRID_MAX : Nat := 63

/-! ## Decimal rendering of numbers

The recorder builds its filename with the f-string
`f"frame_{frame_number:04d}_{timestamp}.json"`. We model decimal rendering on
top of Mathlib `Nat.digits` (little-endian digit list, base 10). -/

/-- Big-endian decimal digits of `n` (empty for 0). -/
def digitsBE (n : Nat) : List Nat :=
  (Nat.digits 10 n).reverse

/-- Decimal digits of `n` padded on the left with zeros to width at least 4:
the digit list of the f-string format `04d`. -/
def pad4digits (n : Nat) : List Nat :=
  List.replicate (4 - (digitsBE n).length) 0 ++ digitsBE n

/-- Decimal digits of `n` as printed by `str` (so 0 prints as the digit 0). -/
def decDigits (n : Nat) : List Nat :=
  if n = 0 then [0] else digitsBE n

/-- The character of one decimal digit. -/
def digitChar (d : Nat) : Char :=
  Char.ofNat (48 + d)

/-- Decimal rendering of `n` with the `04d` zero-padding. -/
def pad4 (n : Nat) : String :=
  String.mk ((pad4digits n).map digitChar)

/-- Plain decimal rendering of `n`. -/
def natRepr (n : Nat) : String :=
  String.mk ((decDigits n).map digitChar)

/-! ## Frame recorder (`save_frame_to_file`, `append_frame`)

The JSON value written for one frame, the filename it is written under, and
the try/except around the write are translated from lines 66-93. Filesystem
interaction is modelled by an explicit outcome: the open/`json.dump` step
either succeeds or fails with an error message, and all possible outcomes are
quantified. -/

/-- A structured JSON value, as produced by `json.dump` on the dict the
recorder builds. -/
inductive Json where
  | null
  | bool (b : Bool)
  | num (n : Nat)
  | str (s : String)
  | arr (elems : List Json)
  | obj (fields : List (String × Json))

/-- Encoding of the grid payload `frame.frame` as nested JSON arrays. -/
def encodeGrid (g : List (List (List Nat))) : Json :=
  .arr (g.map (fun p => .arr (p.map (fun row => .arr (row.map .num)))))

/-- The dict built by `save_frame_to_file` (lines 74-85), as the JSON object
`json.dump` writes. -/
def frameRecordJson (frame : FrameData) (frame_number timestamp : Nat) : Json :=
  .obj [
    ("frame_number", .num frame_number),
    ("timestamp", .num timestamp),
    ("game_id", .str frame.game_id),
    ("frame", encodeGrid frame.frame),
    ("state", .str frame.state.value),
    ("score", .num frame.score),
    ("guid", .str frame.guid),
    ("full_reset", .bool frame.full_reset),
    ("available_actions", .arr (frame.available_actions.map (fun a => .str a.value)))
  ]

/-- The filename built at line 71: `f"frame_{frame_number:04d}_{timestamp}.json"`. -/
def recordFilename (frame_number timestamp : Nat) : String :=
  "frame_" ++ pad4 frame_number ++ "_" ++ natRepr timestamp ++ ".json"

/-- The filepath built at line 72: `os.path.join(self.frames_dir, filename)`. -/
def recordFilepath (frames_dir : String) (frame_number timestamp : Nat) : String :=
  frames_dir ++ "/" ++ recordFilename frame_number timestamp

/-- Outcome of the fallible filesystem step (open plus `json.dump`): success,
or a failure carrying the exception message. -/
inductive WriteOutcome where
  | success
  | failure (msg : String)
deriving DecidableEq, Repr

/-- The raw write of the JSON file: the part of the body that may raise
(storage unavailable, serialization error). -/
def writeJsonFile (fs : WriteOutcome) (filepath : String) (content : Json) :
    Except String Unit :=
  match fs with
  | .success => .ok ()
  | .failure e => .error e

/-- Observable effects of one recorder call: the files written (path and
content) and the lines printed. -/
structure RecorderOutput where
  files : List (String × Json)
  printed : List String

/-- Translation of `MyAwesomeAgent.save_frame_to_file` (lines 66-93). An empty
frame is skipped; otherwise the record is written under the per-game
directory, with the try/except turning a failed write into a printed message.
The `Except` result makes an uncaught exception representable: the body never
produces one. -/
def save_frame_to_file (frames_dir : String) (fs : WriteOutcome)
    (frame : FrameData) (frame_number timestamp : Nat) :
    Except String RecorderOutput :=
  if frame.is_empty then
    .ok { files := [], printed := [] }
  else
    let filepath := recordFilepath frames_dir frame_number timestamp
    let content := frameRecordJson frame frame_number timestamp
    match writeJsonFile fs filepath content with
    | .ok _ =>
        .ok { files := [(filepath, content)],
              printed := ["Saved frame " ++ natRepr frame_number ++ " to " ++ filepath] }
    | .error e =>
        .ok { files := [],
              printed := ["Failed to save frame " ++ natRepr frame_number ++ ": " ++ e] }

/-- State of one agent instance relevant to `append_frame`: the frame history
and the log of recorder invocations (frame, sequence number), in order. -/
structure AgentState where
  frames : List FrameData
  recorded : List (FrameData × Nat)
deriving DecidableEq, Repr

/-- Modelled from the spec: the parent `Agent.append_frame`
(`agents/agent.py`, not among the analysed sources) appends the new frame to
the FrameHistory, which grows in arrival order and is never truncated or
reordered. -/
def parent_append_frame (s : AgentState) (frame : FrameData) : AgentState :=
  { s with frames := s.frames ++ [frame] }

/-- Translation of `MyAwesomeAgent.append_frame` (lines 95-102): call the
parent implementation first, then invoke the recorder with the frame and
`len(self.frames) - 1`. -/
def append_frame (s : AgentState) (frame : FrameData) : AgentState :=
  let s1 := parent_append_frame s frame
  let frame_number := s1.frames.length - 1
  { s1 with recorded := s1.recorded ++ [(frame, frame_number)] }

/-! ## Deserialization of a persisted record

The spec requires the persisted record to parse back into the same field
values. The decoder below reads the fixed record layout back into its typed
fields, inverting the encodings used by `frameRecordJson`. -/

/-- Read a JSON number. -/
def Json.asNat : Json → Option Nat
  | .num n => Option.some n
  | _ => Option.none

/-- Read a JSON string. -/
def Json.asStr : Json → Option String
  | .str s => Option.some s
  | _ => Option.none

/-- Read a JSON boolean. -/
def Json.asBool : Json → Option Bool
  | .bool b => Option.some b
  | _ => Option.none

/-- Decode one grid row (a JSON array of numbers). -/
def decodeRow : Json → Option (List Nat)
  | .arr es => es.mapM Json.asNat
  | _ => Option.none

/-- Decode one grid panel (a JSON array of rows). -/
def decodePanel : Json → Option (List (List Nat))
  | .arr es => es.mapM decodeRow
  | _ => Option.none

/-- Decode the full grid payload (a JSON array of panels). -/
def decodeGrid : Json → Option (List (List (List Nat)))
  | .arr es => es.mapM decodePanel
  | _ => Option.none

/-- Inverse of `GameState.value`. -/
def GameState.ofValue (s : String) : Option GameState :=
  if s = "NOT_PLAYED" then Option.some .NOT_PLAYED
  else if s = "NOT_FINISHED" then Option.some .NOT_FINISHED
  else if s = "GAME_OVER" then Option.some .GAME_OVER
  else if s = "WIN" then Option.some .WIN
  else Option.none

/-- Inverse of `GameAction.value`. -/
def GameAction.ofValue (s : String) : Option GameAction :=
  if s = "RESET" then Option.some .RESET
  else if s = "ACTION1" then Option.some .ACTION1
  else if s = "ACTION2" then Option.some .ACTION2
  else if s = "ACTION3" then Option.some .ACTION3
  else if s = "ACTION4" then Option.some .ACTION4
  else if s = "ACTION5" then Option.some .ACTION5
  else if s = "ACTION6" then Option.some .ACTION6
  else Option.none

/-- Decode the list of available action kinds (a JSON array of value
strings). -/
def decodeActions : Json → Option (List GameAction)
  | .arr es => es.mapM (fun e => e.asStr.bind GameAction.ofValue)
  | _ => Option.none

/-- The typed fields read back from one persisted record. -/
structure DecodedRecord where
  frame_number : Nat
  timestamp : Nat
  game_id : String
  frame : List (List (List Nat))
  state : GameState
  score : Nat
  guid : String
  full_reset : Bool
  available_actions : List GameAction
deriving DecidableEq, Repr

/-- Decode one persisted record from its fixed nine-field layout. -/
def decodeRecord : Json → Option DecodedRecord
  | .obj [("frame_number", jn), ("timestamp", jt), ("game_id", jg),
          ("frame", jf), ("state", js), ("score", jsc), ("guid", jgu),
          ("full_reset", jfr), ("available_actions", ja)] => do
      let n ← jn.asNat
      let t ← jt.asNat
      let g ← jg.asStr
      let fr ← decodeGrid jf
      let stv ← js.asStr
      let st ← GameState.ofValue stv
      let sc ← jsc.asNat
      let gu ← jgu.asStr
      let fres ← jfr.asBool
      let acts ← decodeActions ja
      Option.some { frame_number := n, timestamp := t, game_id := g,
                    frame := fr, state := st, score := sc, guid := gu,
                    full_reset := fres, available_actions := acts }
  | _ => Option.none

/-! ## The world for purity statements

The spec calls both decision engine operations pure. The observable state a
call could touch is the frame history, the latest frame, and the process-wide
random generator; a call is modelled as a function from this world to a
result paired with the world after the call. -/

/-- Observable state around a decision engine call. -/
structure World where
  frames : List FrameData
  latest_frame : FrameData
  rng : RandState

/-- Running `is_done` against the world: the Python body only reads
`latest_frame.state`. -/
def is_done_run (w : World) : Bool × World :=
  (is_done w.frames w.latest_frame, w)

/-- Running `choose_action` against the world: the random draws advance the
process-wide generator. -/
def choose_action_run (w : World) : ChosenAction × World :=
  let ar := choose_action w.rng w.frames w.latest_frame
  (ar.1, { w with rng := ar.2 })

/-! ## Concrete fixtures used by witnesses and counterexamples -/

/-- A non-empty frame in the in-progress state. -/
def activeFrame : FrameData :=
  { game_id := "game-1", frame := [[[0]]], state := GameState.NOT_FINISHED,
    score := 0, guid := "guid-1", full_reset := false, available_actions := [] }

/-- A generator state whose stream is constantly zero, at position zero. -/
def zeroRng : RandState := { stream := fun _ => 0, pos := 0 }

/-- A generator state whose stream is constantly five, at position zero; its
first choice draw selects the complex kind ACTION6. -/
def fiveRng : RandState := { stream := fun _ => 5, pos := 0 }

/-- A world holding an empty history, the in-progress frame and the zero
generator. -/
def activeWorld : World :=
  { frames := [], latest_frame := activeFrame, rng := zeroRng }

/-- An empty frame, as produced before any real frame content arrives. -/
def emptyFrame : FrameData :=
  { game_id := "game-1", frame := [], state := GameState.NOT_PLAYED,
    score := 0, guid := "guid-0", full_reset := false, available_actions := [] }

/-- A non-empty frame with several panels, actions and a WIN state, used as a
round-trip witness input. -/
def richFrame : FrameData :=
  { game_id := "game-2", frame := [[[1, 2], [3, 4]], [[5]]], state := GameState.WIN,
    score := 42, guid := "guid-2", full_reset := true,
    available_actions := [GameAction.ACTION1, GameAction.ACTION6] }

/-- Reading a decimal digit back from its character. -/
def charToDigit (c : Char) : Nat :=
  c.toNat - 48

/-- Reading a number back from its big-endian decimal digit list. -/
def parseDigits (l : List Nat) : Nat :=
  Nat.ofDigits 10 l.reverse

/-! ## Helper lemmas -/

theorem choice_ne_reset (draw : Nat) :
    pyChoice (GameAction.all.filter (fun a => a ≠ GameAction.RESET))
      GameAction.RESET draw ≠ GameAction.RESET := by
  have hl : GameAction.all.filter (fun a => a ≠ GameAction.RESET) =
      [GameAction.ACTION1, GameAction.ACTION2, GameAction.ACTION3,
       GameAction.ACTION4, GameAction.ACTION5, GameAction.ACTION6] := by decide
  have key : ∀ m, m < 6 →
      ([GameAction.ACTION1, GameAction.ACTION2, GameAction.ACTION3,
        GameAction.ACTION4, GameAction.ACTION5,
        GameAction.ACTION6].getD m GameAction.RESET) ≠ GameAction.RESET := by
    decide
  unfold pyChoice
  rw [hl]
  exact key _ (Nat.mod_lt _ (by norm_num))

theorem choose_action_kind (rng : RandState) (frames : List FrameData)
    (latest_frame : FrameData) :
    (choose_action rng frames latest_frame).1.kind =
      if latest_frame.state = GameState.NOT_PLAYED ∨
          latest_frame.state = GameState.GAME_OVER then
        GameAction.RESET
      else
        pyChoice (GameAction.all.filter (fun a => a ≠ GameAction.RESET))
          GameAction.RESET (rng.next).1 := by
  by_cases h : latest_frame.state = GameState.NOT_PLAYED ∨
      latest_frame.state = GameState.GAME_OVER
  · simp [choose_action, h, GameAction.is_simple]
  · simp only [choose_action, if_neg h]
    generalize pyChoice (GameAction.all.filter (fun a => a ≠ GameAction.RESET))
      GameAction.RESET (rng.next).1 = a
    cases a <;> rfl

theorem randint_le_63 (d : Nat) : randint 0 63 d ≤ 63 := by
  have h := Nat.mod_lt d (show 0 < 64 by norm_num)
  unfold randint
  omega

theorem choose_action_data_bounds (rng : RandState) (frames : List FrameData)
    (latest_frame : FrameData) (x y : Nat)
    (h : (choose_action rng frames latest_frame).1.data = Option.some (x, y)) :
    x ≤ 63 ∧ y ≤ 63 := by
  by_cases hs : latest_frame.state = GameState.NOT_PLAYED ∨
      latest_frame.state = GameState.GAME_OVER
  · simp [choose_action, hs, GameAction.is_simple] at h
  · simp only [choose_action, if_neg hs] at h
    generalize pyChoice (GameAction.all.filter (fun a => a ≠ GameAction.RESET))
      GameAction.RESET (rng.next).1 = a at h
    cases a <;> simp [GameAction.is_simple, GameAction.is_complex] at h
    obtain ⟨hx, hy⟩ := h
    exact ⟨hx ▸ randint_le_63 _, hy ▸ randint_le_63 _⟩

/-! ## Claim theorems: decision engine -/

/-- C1: for every frame history, latest frame and generator state,
`choose_action` returns the RESET action exactly when the latest frame state
is NOT_PLAYED or GAME_OVER; in every other state the returned action is never
RESET, whatever the history holds. -/
theorem choose_action_reset_iff (rng : RandState) (frames : List FrameData)
    (latest_frame : FrameData) :
    (choose_action rng frames latest_frame).1.kind = GameAction.RESET ↔
      (latest_frame.state = GameState.NOT_PLAYED ∨
       latest_frame.state = GameState.GAME_OVER) := by
  rw [choose_action_kind]
  by_cases h : latest_frame.state = GameState.NOT_PLAYED ∨
      latest_frame.state = GameState.GAME_OVER
  · rw [if_pos h]
    exact iff_of_true rfl h
  · rw [if_neg h]
    exact iff_of_false (choice_ne_reset _) h

/-- C2: for every frame history and latest frame, `is_done` returns true
exactly when the latest frame state is WIN; on GAME_OVER and every other
non-WIN state it returns false. -/
theorem is_done_iff_win (frames : List FrameData) (latest_frame : FrameData) :
    is_done frames latest_frame = true ↔ latest_frame.state = GameState.WIN := by
  simp [is_done]

/-- C3: whenever `choose_action` returns a complex action, the attached
payload holds coordinates x and y with 0 ≤ x ≤ GRID_MAX and 0 ≤ y ≤ GRID_MAX
(GRID_MAX = 63), for every possible draw of the random generator. -/
theorem choose_action_complex_in_grid (rng : RandState) (frames : List FrameData)
    (latest_frame : FrameData)
    (h : (choose_action rng frames latest_frame).1.kind.is_complex = true) :
    ∃ x y, (choose_action rng frames latest_frame).1.data = Option.some (x, y) ∧
      x ≤ GRID_MAX ∧ y ≤ GRID_MAX := by
  by_cases hs : latest_frame.state = GameState.NOT_PLAYED ∨
      latest_frame.state = GameState.GAME_OVER
  · rw [choose_action_kind, if_pos hs] at h
    simp [GameAction.is_complex] at h
  · have hd : ∃ x y,
        (choose_action rng frames latest_frame).1.data = Option.some (x, y) := by
      simp only [choose_action, if_neg hs] at h ⊢
      generalize pyChoice (GameAction.all.filter (fun a => a ≠ GameAction.RESET))
        GameAction.RESET (rng.next).1 = a at h ⊢
      cases a <;> simp [GameAction.is_simple, GameAction.is_complex] at h ⊢
    obtain ⟨x, y, hxy⟩ := hd
    obtain ⟨hx, hy⟩ := choose_action_data_bounds rng frames latest_frame x y hxy
    exact ⟨x, y, hxy, hx, hy⟩

/-- Witness for C3: with the constant-five stream the chosen action is the
complex ACTION6 and the bound holds at the produced coordinates. -/
theorem choose_action_complex_in_grid_witness :
    (choose_action fiveRng [] activeFrame).1.kind.is_complex = true ∧
    ∃ x y, (choose_action fiveRng [] activeFrame).1.data = Option.some (x, y) ∧
      x ≤ GRID_MAX ∧ y ≤ GRID_MAX :=
  ⟨rfl, choose_action_complex_in_grid fiveRng [] activeFrame rfl⟩

/-- C10: the verdict of `is_done` never depends on the history argument: any
two histories paired with the same latest frame give the same boolean. -/
theorem is_done_history_independent (h1 h2 : List FrameData)
    (latest_frame : FrameData) :
    is_done h1 latest_frame = is_done h2 latest_frame := rfl

/-- C9 counterexample: running `choose_action` on a concrete world whose
latest frame is in the in-progress state changes the observable world, the
process-wide random generator state having advanced. -/
theorem choose_action_run_mutates_world :
    (choose_action_run activeWorld).2 ≠ activeWorld := by
  intro h
  have hp : (choose_action_run activeWorld).2.rng.pos = activeWorld.rng.pos :=
    congrArg (fun w => w.rng.pos) h
  have h1 : (choose_action_run activeWorld).2.rng.pos = 1 := rfl
  have h0 : activeWorld.rng.pos = 0 := rfl
  rw [h1, h0] at hp
  exact Nat.one_ne_zero hp

/-- C9 amended: `is_done` is pure and total — it leaves the whole world
unchanged — and `choose_action` leaves the frame history and the latest frame
unchanged; but `choose_action` is not pure with respect to all observable
state, since it advances the process-wide random generator. -/
theorem decision_engine_effects (w : World) :
    (is_done_run w).2 = w ∧
    (choose_action_run w).2.frames = w.frames ∧
    (choose_action_run w).2.latest_frame = w.latest_frame :=
  ⟨rfl, rfl, rfl⟩

/-! ## Claim theorems: frame recorder -/

/-- C4: for every frame, sequence number, timestamp and filesystem outcome —
success or any failure — `save_frame_to_file` returns normally: the try
around the write turns every persistence failure into a printed report, and
no exception escapes the recorder. -/
theorem save_frame_never_raises (frames_dir : String) (fs : WriteOutcome)
    (frame : FrameData) (frame_number timestamp : Nat) :
    ∃ out, save_frame_to_file frames_dir fs frame frame_number timestamp =
        Except.ok out ∧
      (frame.is_empty = false → ∀ e, fs = WriteOutcome.failure e →
        out.printed =
          ["Failed to save frame " ++ natRepr frame_number ++ ": " ++ e]) := by
  cases hfe : frame.is_empty <;> cases fs <;>
    simp [save_frame_to_file, hfe, writeJsonFile]

/-- C6: for every empty frame and every sequence number, the recorder writes
no record and prints nothing: the empty frame is silently skipped and no
error is signalled. -/
theorem save_frame_empty_skipped (frames_dir : String) (fs : WriteOutcome)
    (frame : FrameData) (frame_number timestamp : Nat)
    (h : frame.is_empty = true) :
    save_frame_to_file frames_dir fs frame frame_number timestamp =
      Except.ok { files := [], printed := [] } := by
  simp [save_frame_to_file, h]

/-- Witness for C6: the concrete empty frame is skipped with no record and no
message. -/
theorem save_frame_empty_skipped_witness :
    emptyFrame.is_empty = true ∧
    save_frame_to_file "frames/game-1" .success emptyFrame 0 17 =
      Except.ok { files := [], printed := [] } :=
  ⟨rfl, save_frame_empty_skipped "frames/game-1" .success emptyFrame 0 17 rfl⟩

/-- C8: `append_frame` first appends the frame to the history and then
invokes the recorder exactly once, with that frame and the sequence number
equal to the new length of the history minus one, which is the index of the
appended frame. -/
theorem append_frame_records_once (s : AgentState) (frame : FrameData) :
    (append_frame s frame).frames = s.frames ++ [frame] ∧
    (append_frame s frame).recorded =
      s.recorded ++ [(frame, (s.frames ++ [frame]).length - 1)] ∧
    (s.frames ++ [frame]).length - 1 = s.frames.length := by
  refine ⟨rfl, rfl, ?_⟩
  simp

/-! ## Round-trip lemmas for the persisted record -/

theorem mapM_map_of_inv {α β : Type} (f : α → β) (g : β → Option α)
    (h : ∀ x, g (f x) = Option.some x) (l : List α) :
    (l.map f).mapM g = Option.some l := by
  induction l with
  | nil => rfl
  | cons x xs ih =>
    simp only [List.map_cons, List.mapM_cons, h, ih]
    rfl

theorem decodeRow_encode (row : List Nat) :
    decodeRow (.arr (row.map .num)) = Option.some row := by
  simpa [decodeRow] using mapM_map_of_inv Json.num Json.asNat (fun x => rfl) row

theorem decodePanel_encode (p : List (List Nat)) :
    decodePanel (.arr (p.map (fun row => .arr (row.map .num)))) = Option.some p := by
  simpa [decodePanel] using
    mapM_map_of_inv (fun row => Json.arr (row.map Json.num)) decodeRow
      decodeRow_encode p

theorem decodeGrid_encode (g : List (List (List Nat))) :
    decodeGrid (encodeGrid g) = Option.some g := by
  simpa [decodeGrid, encodeGrid] using
    mapM_map_of_inv
      (fun p => Json.arr (p.map (fun row => Json.arr (row.map Json.num))))
      decodePanel decodePanel_encode g

theorem stateValue_roundtrip (st : GameState) :
    GameState.ofValue st.value = Option.some st := by
  cases st <;> rfl

theorem actionValue_roundtrip (a : GameAction) :
    GameAction.ofValue a.value = Option.some a := by
  cases a <;> rfl

theorem decodeActions_encode (acts : List GameAction) :
    decodeActions (.arr (acts.map (fun a => .str a.value))) = Option.some acts := by
  simpa [decodeActions] using
    mapM_map_of_inv (fun a => Json.str a.value)
      (fun e => e.asStr.bind GameAction.ofValue)
      (fun a => by simp [Json.asStr, actionValue_roundtrip]) acts

theorem decodeRecord_roundtrip (frame : FrameData) (k ts : Nat) :
    decodeRecord (frameRecordJson frame k ts) =
      Option.some { frame_number := k, timestamp := ts, game_id := frame.game_id,
                    frame := frame.frame, state := frame.state, score := frame.score,
                    guid := frame.guid, full_reset := frame.full_reset,
                    available_actions := frame.available_actions } := by
  simp [decodeRecord, frameRecordJson, Json.asNat, Json.asStr, Json.asBool,
        decodeGrid_encode, stateValue_roundtrip, decodeActions_encode]

/-- C5: for every non-empty frame and sequence number k, one successful
recorder call persists exactly one record, and decoding that record gives
back frame_number = k together with the game_id, frame, state, score, guid,
full_reset and available_actions of the recorded frame. -/
theorem save_frame_roundtrip (frames_dir : String) (frame : FrameData)
    (k ts : Nat) (h : frame.is_empty = false) :
    ∃ out, save_frame_to_file frames_dir .success frame k ts = Except.ok out ∧
      out.files.length = 1 ∧
      ∀ r ∈ out.files, decodeRecord r.2 =
        Option.some { frame_number := k, timestamp := ts,
                      game_id := frame.game_id, frame := frame.frame,
                      state := frame.state, score := frame.score,
                      guid := frame.guid, full_reset := frame.full_reset,
                      available_actions := frame.available_actions } := by
  refine ⟨{ files := [(recordFilepath frames_dir k ts, frameRecordJson frame k ts)],
            printed := ["Saved frame " ++ natRepr k ++ " to " ++
              recordFilepath frames_dir k ts] }, ?_, rfl, ?_⟩
  · simp [save_frame_to_file, h, writeJsonFile]
  · intro r hr
    rw [List.mem_singleton] at hr
    rw [hr]
    exact decodeRecord_roundtrip frame k ts

/-- Witness for C5: the round-trip holds at the concrete non-empty frame. -/
theorem save_frame_roundtrip_witness :
    richFrame.is_empty = false ∧
    ∃ out, save_frame_to_file "frames/game-2" .success richFrame 3 777 =
        Except.ok out ∧
      out.files.length = 1 ∧
      ∀ r ∈ out.files, decodeRecord r.2 =
        Option.some { frame_number := 3, timestamp := 777,
                      game_id := richFrame.game_id, frame := richFrame.frame,
                      state := richFrame.state, score := richFrame.score,
                      guid := richFrame.guid, full_reset := richFrame.full_reset,
                      available_actions := richFrame.available_actions } :=
  ⟨rfl, save_frame_roundtrip "frames/game-2" richFrame 3 777 rfl⟩

/-! ## Filename uniqueness -/

theorem ofDigits_replicate_zero (z : Nat) :
    Nat.ofDigits 10 (List.replicate z 0) = 0 := by
  induction z with
  | zero => rfl
  | succ n ih => simp [List.replicate, Nat.ofDigits_cons, ih]

theorem parse_pad4digits (k : Nat) : parseDigits (pad4digits k) = k := by
  unfold parseDigits pad4digits digitsBE
  rw [List.reverse_append, List.reverse_reverse, List.reverse_replicate,
      Nat.ofDigits_append, Nat.ofDigits_digits, ofDigits_replicate_zero]
  simp

theorem pad4digits_lt (k : Nat) : ∀ d ∈ pad4digits k, d < 10 := by
  intro d hd
  unfold pad4digits at hd
  rcases List.mem_append.mp hd with h | h
  · rw [List.eq_of_mem_replicate h]
    norm_num
  · exact Nat.digits_lt_base (by norm_num) (List.mem_reverse.mp h)

theorem charToDigit_digitChar : ∀ d, d < 10 → charToDigit (digitChar d) = d := by
  decide

theorem map_charToDigit_map_digitChar (l : List Nat) (h : ∀ d ∈ l, d < 10) :
    (l.map digitChar).map charToDigit = l := by
  induction l with
  | nil => rfl
  | cons d ds ih =>
    simp only [List.map_cons, List.cons.injEq]
    exact ⟨charToDigit_digitChar d (h d (List.mem_cons_self d ds)),
           ih (fun x hx => h x (List.mem_cons_of_mem d hx))⟩

theorem pad4_inj {k1 k2 : Nat} (h : pad4 k1 = pad4 k2) : k1 = k2 := by
  have hdata : (pad4digits k1).map digitChar = (pad4digits k2).map digitChar := by
    have := congrArg String.data h
    simpa [pad4] using this
  have hdigits : pad4digits k1 = pad4digits k2 := by
    have h1 := map_charToDigit_map_digitChar (pad4digits k1) (pad4digits_lt k1)
    have h2 := map_charToDigit_map_digitChar (pad4digits k2) (pad4digits_lt k2)
    rw [← h1, ← h2, hdata]
  have := congrArg parseDigits hdigits
  rwa [parse_pad4digits, parse_pad4digits] at this

/-- C7: two recorder calls with distinct sequence numbers produce distinct
filenames — and distinct filepaths inside the per-game directory — even when
both observe the same timestamp: the zero-padded sequence number alone
disambiguates. -/
theorem recordFilename_no_collision (frames_dir : String) (ts k1 k2 : Nat)
    (h : k1 ≠ k2) :
    recordFilename k1 ts ≠ recordFilename k2 ts ∧
    recordFilepath frames_dir k1 ts ≠ recordFilepath frames_dir k2 ts := by
  have hname : recordFilename k1 ts ≠ recordFilename k2 ts := by
    intro he
    apply h
    apply pad4_inj
    have hdata := congrArg String.data he
    simp only [recordFilename, String.data_append, List.append_assoc] at hdata
    have hmid := List.append_cancel_left hdata
    exact String.ext (List.append_cancel_right hmid)
  refine ⟨hname, ?_⟩
  intro he
  apply hname
  have hdata := congrArg String.data he
  simp only [recordFilepath, String.data_append, List.append_assoc] at hdata
  exact String.ext (List.append_cancel_left (List.append_cancel_left hdata))

/-- Witness for C7: two concrete recorder calls in the same tick get distinct
names. -/
theorem recordFilename_no_collision_witness :
    (3 : Nat) ≠ 4 ∧
    (recordFilename 3 1000 ≠ recordFilename 4 1000 ∧
     recordFilepath "frames/game-1" 3 1000 ≠ recordFilepath "frames/game-1" 4 1000) :=
  ⟨by norm_num, recordFilename_no_collision "frames/game-1" 1000 3 4 (by norm_num)⟩

end ArcAgents
